import Mathlib

/-!
Verification of the resilience core of the chatBot repository:
the circuit breaker (`backend/app/core/circuit_breaker.py`),
the two-tier cache (`backend/app/core/cache.py`) and the
multi-strategy vector-search orchestrator
(`backend/app/services/vector_service.py`).

Python floats are modelled as rationals, Python `time.time()` timestamps
as integers (only their additive order matters to the code), and Python exceptions as an explicit inductive type.
Fallible code returns `Except` / `Option`.
-/

namespace ChatBot

/-- Python exception values that occur in the modelled code paths. -/
inductive PyExn where
  | valueError : String → PyExn
  | typeError : String → PyExn
  | apiError : PyExn
  | rateLimitError : PyExn
  | apiConnectionError : PyExn
  | timeoutError : PyExn
  | generic : String → PyExn
deriving DecidableEq, Repr

/-! ## Circuit breaker (`backend/app/core/circuit_breaker.py`) -/

/-- `CircuitState` enum of the source: CLOSED, OPEN, HALF_OPEN. -/
inductive CircuitState where
  | closed
  | opened
  | halfOpen
deriving DecidableEq, Repr

/-- `CircuitBreakerConfig` dataclass.  `expected_exception` is the tuple of
exception classes counted by the breaker, modelled as its membership
predicate; the source default `(Exception,)` matches every exception. -/
structure CircuitBreakerConfig where
  failure_threshold : Nat := 5
  recovery_timeout : Int := 60
  expected_exception : PyExn → Bool := fun _ => true
  success_threshold : Nat := 3

/-- Mutable state of a `CircuitBreaker` instance. -/
structure CircuitBreaker where
  config : CircuitBreakerConfig
  failure_count : Nat := 0
  success_count : Nat := 0
  last_failure_time : Int := 0
  state : CircuitState := .closed

/-- `CircuitBreaker._on_success`: reset the failure counter; while half-open,
count the success and close once `success_threshold` is reached. -/
def CircuitBreaker.on_success (b : CircuitBreaker) : CircuitBreaker :=
  let b := { b with failure_count := 0 }
  if b.state = .halfOpen then
    let b := { b with success_count := b.success_count + 1 }
    if b.config.success_threshold ≤ b.success_count then
      { b with state := .closed }
    else b
  else b

/-- `CircuitBreaker._on_failure`: count the failure, stamp the time, and
open once `failure_threshold` is reached. -/
def CircuitBreaker.on_failure (b : CircuitBreaker) (now : Int) : CircuitBreaker :=
  let b := { b with failure_count := b.failure_count + 1, last_failure_time := now }
  if b.config.failure_threshold ≤ b.failure_count then
    { b with state := .opened }
  else b

/-- The first (locked) block of `CircuitBreaker.call`: while OPEN, either
lazily transition to HALF_OPEN after `recovery_timeout`, or reject the call
with the breaker-open error without invoking the wrapped operation. -/
def CircuitBreaker.openGate (b : CircuitBreaker) (now : Int) :
    Except PyExn CircuitBreaker :=
  if b.state = .opened then
    if b.config.recovery_timeout ≤ now - b.last_failure_time then
      .ok { b with state := .halfOpen, success_count := 0 }
    else
      .error (.generic "Circuit breaker is OPEN - requests blocked")
  else .ok b

/-- The try/except block of `CircuitBreaker.call`: on success run
`_on_success`; on an exception in the configured `expected_exception` set run
`_on_failure` and re-raise; any other exception propagates without touching
the breaker. -/
def CircuitBreaker.record {α : Type} (b : CircuitBreaker) (now : Int)
    (outcome : Except PyExn α) : CircuitBreaker :=
  match outcome with
  | .ok _ => b.on_success
  | .error e => if b.config.expected_exception e then b.on_failure now else b

/-- Result of one `CircuitBreaker.call`: the value or exception surfaced to
the caller, the breaker afterwards, and whether the wrapped operation was
actually invoked. -/
structure CallResult (α : Type) where
  result : Except PyExn α
  breaker : CircuitBreaker
  invoked : Bool

/-- `CircuitBreaker.call`, with the wrapped coroutine's behaviour at this
call given as its `outcome`.  `invoked` records whether the operation ran
(it does not run when the open breaker rejects the call). -/
def CircuitBreaker.call {α : Type} (b : CircuitBreaker) (now : Int)
    (outcome : Except PyExn α) : CallResult α :=
  match b.openGate now with
  | .error e => ⟨.error e, b, false⟩
  | .ok b1 => ⟨outcome, b1.record now outcome, true⟩

/-- Fold a sequence of calls (each a timestamp and the wrapped operation's
outcome at that call) through one breaker. -/
def CircuitBreaker.callSeq (b : CircuitBreaker) :
    List (Int × Except PyExn Unit) → CircuitBreaker
  | [] => b
  | (t, o) :: rest => ((b.call t o).breaker).callSeq rest

/-! ## Two-tier cache (`backend/app/core/cache.py`)

Python dicts keyed by strings are modelled as association lists.  The
payload type is a parameter `α`; the JSON round trip through Redis
(`json.dumps` on `set`, `json.loads` on a hit) is modelled as the identity
on the stored payload. -/

/-- Lookup in a Python dict modelled as an association list. -/
def dictGet {β : Type} (l : List (String × β)) (k : String) : Option β :=
  match l with
  | [] => none
  | (k1, v) :: rest => if k1 = k then some v else dictGet rest k

/-- `d[k] = v` on a Python dict: replace the binding or append it. -/
def dictSet {β : Type} (l : List (String × β)) (k : String) (v : β) :
    List (String × β) :=
  match l with
  | [] => [(k, v)]
  | (k1, v1) :: rest => if k1 = k then (k, v) :: rest else (k1, v1) :: dictSet rest k v

/-- `del d[k]` on a Python dict. -/
def dictDel {β : Type} (l : List (String × β)) (k : String) : List (String × β) :=
  match l with
  | [] => []
  | (k1, v1) :: rest => if k1 = k then rest else (k1, v1) :: dictDel rest k

/-- One `memory_cache` entry: the stored payload and its absolute expiry
timestamp (`"data"` / `"expires"` in the source dict). -/
structure CacheEntry (α : Type) where
  data : α
  expires : Int
deriving DecidableEq, Repr

/-- One key in the external Redis store with its absolute expiry (Redis
`setex` semantics: the key vanishes once its TTL has elapsed). -/
structure RedisEntry (α : Type) where
  data : α
  expires : Int
deriving DecidableEq, Repr

/-- State of an `UltraFastCache` instance plus the external Redis store it
talks to.  `redis_available` models `self.redis_client is not None`. -/
structure CacheState (α : Type) where
  memory_cache : List (String × CacheEntry α)
  redis_available : Bool
  redis_store : List (String × RedisEntry α)
  hits : Nat := 0
  misses : Nat := 0
  total_requests : Nat := 0
deriving DecidableEq, Repr

/-- A fault of one Redis operation: `asyncio.TimeoutError` from the 0.1 s
`wait_for`, or any other Redis exception.  Both are caught by `get`. -/
inductive RedisFault where
  | timeout
  | err
deriving DecidableEq, Repr

/-- Redis `GET`: a key is only returned while its TTL has not elapsed. -/
def redisLookup {α : Type} (store : List (String × RedisEntry α)) (k : String)
    (now : Int) : Option α :=
  match dictGet store k with
  | some e => if now < e.expires then some e.data else none
  | none => none

/-- The level-2 part of `UltraFastCache.get`: consult Redis (if configured),
promote a hit into the memory tier with a fresh 300 s expiry, otherwise
count a miss.  A faulting Redis call is caught and falls through to the
miss path. -/
def UltraFastCache.getRedis {α : Type} (st : CacheState α) (key : String)
    (now : Int) (fault : Option RedisFault) : Option α × CacheState α :=
  if st.redis_available then
    match fault with
    | some _ => (none, { st with misses := st.misses + 1 })
    | none =>
      match redisLookup st.redis_store key now with
      | some v =>
        let st := { st with
          memory_cache := dictSet st.memory_cache key ⟨v, now + 300⟩ }
        (some v, { st with hits := st.hits + 1 })
      | none => (none, { st with misses := st.misses + 1 })
  else (none, { st with misses := st.misses + 1 })

/-- `UltraFastCache.get`: count the request; serve a live memory entry
(deleting it when expired), else fall back to Redis, else miss. -/
def UltraFastCache.get {α : Type} (st : CacheState α) (key : String)
    (now : Int) (fault : Option RedisFault) : Option α × CacheState α :=
  let st := { st with total_requests := st.total_requests + 1 }
  match dictGet st.memory_cache key with
  | some entry =>
    if now < entry.expires then
      (some entry.data, { st with hits := st.hits + 1 })
    else
      let st := { st with memory_cache := dictDel st.memory_cache key }
      UltraFastCache.getRedis st key now fault
  | none => UltraFastCache.getRedis st key now fault

/-- `UltraFastCache.set` (source default `ttl = 3600`): write the memory
tier with expiry `now + min ttl 300` (the 5-minute memory cap), then
best-effort write Redis with the full `ttl`; a Redis failure (`setFault`)
is caught and logged. -/
def UltraFastCache.set {α : Type} (st : CacheState α) (key : String) (data : α)
    (ttl : Int) (now : Int) (setFault : Bool) : CacheState α :=
  let st := { st with
    memory_cache := dictSet st.memory_cache key ⟨data, now + min ttl 300⟩ }
  if st.redis_available then
    if setFault then st
    else { st with redis_store := dictSet st.redis_store key ⟨data, now + ttl⟩ }
  else st

/-- Substring test used for `pattern in k` and the Redis `*pattern*` glob. -/
def strContainsSub (hay pat : String) : Bool :=
  decide (List.IsInfix pat.toList hay.toList)

/-- `UltraFastCache.invalidate_pattern`: drop matching keys from both tiers;
a Redis failure (`redisFault`) is caught and logged. -/
def UltraFastCache.invalidate_pattern {α : Type} (st : CacheState α)
    (pattern : String) (redisFault : Bool) : CacheState α :=
  let st := { st with
    memory_cache := st.memory_cache.filter fun kv => !(strContainsSub kv.1 pattern) }
  if st.redis_available then
    if redisFault then st
    else { st with
      redis_store := st.redis_store.filter fun kv => !(strContainsSub kv.1 pattern) }
  else st

/-- The dict returned by `UltraFastCache.get_stats` (the 2-decimal rounding
of the hit rate is kept exact here; no claim depends on it). -/
structure CacheStats where
  hits : Nat
  misses : Nat
  total_requests : Nat
  hit_rate_percent : ℚ
  memory_cache_size : Nat

/-- `UltraFastCache.get_stats`: derived statistics; it mutates nothing. -/
def UltraFastCache.get_stats {α : Type} (st : CacheState α) : CacheStats :=
  { hits := st.hits
    misses := st.misses
    total_requests := st.total_requests
    hit_rate_percent := ((st.hits : ℚ) / (max st.total_requests 1 : ℚ)) * 100
    memory_cache_size := st.memory_cache.length }

/-! ## Vector search strategies (`backend/app/services/vector_service.py`)

Similarity scores are Python floats, modelled as rationals.  The external
numeric kernels (the FAISS index search and the sklearn cosine kernel) are
parameters of the strategies; everything the repository's own code does
with their output is modelled verbatim. -/

/-- One `qa_metadata` entry (the dict copied into each result). -/
structure QAMeta where
  id : String
  question : String
  answer : String
deriving DecidableEq, Repr

/-- A search result: a copied metadata dict plus the `"similarity"` key. -/
structure SearchResult where
  id : String
  question : String
  answer : String
  similarity : ℚ
deriving DecidableEq, Repr

/-- `result = self.qa_metadata[idx].copy(); result["similarity"] = score`. -/
def mkResult (m : QAMeta) (s : ℚ) : SearchResult :=
  ⟨m.id, m.question, m.answer, s⟩

/-- `UltraFastVectorService._search_memory_index`.  `faiss_row` is the
`zip(scores[0], indices[0])` row produced by the external FAISS search on
the query; the source keeps each `(score, idx)` pair whose index is a valid
metadata position and copies the score through unchanged. -/
def UltraFastVectorService.search_memory_index
    (memory_index_present : Bool) (qa_embeddings_count : Nat)
    (qa_metadata : List QAMeta) (faiss_row : List (ℚ × Int)) :
    List SearchResult :=
  if !memory_index_present || qa_embeddings_count == 0 then []
  else
    faiss_row.filterMap fun si =>
      if 0 ≤ si.2 ∧ si.2 < (qa_metadata.length : Int) then
        (qa_metadata.get? si.2.toNat).map fun m => mkResult m si.1
      else none

/-- The `"answer"` lookup target of one Chroma metadata dict
(`metadatas[0][i].get("answer", "")`). -/
structure ChromaMeta where
  answer : Option String
deriving DecidableEq, Repr

/-- The parallel arrays of a Chroma query response, first row each
(`ids[0]`, `documents[0]`, `metadatas[0]`, `distances[0]`); a missing
optional key is `none`. -/
structure ChromaResponse where
  ids : List String
  documents : Option (List String)
  metadatas : Option (List ChromaMeta)
  distances : Option (List ℚ)
deriving DecidableEq, Repr

/-- Outcome of `asyncio.wait_for(chroma_client.search_similar(...), 1.0)`:
a response (`.ok none` models a falsy response or one without an `"ids"`
key, which skips the formatting loop), the 1 s timeout, or any other
exception. -/
inductive ChromaOutcome where
  | ok : Option ChromaResponse → ChromaOutcome
  | timeout : ChromaOutcome
  | failed : ChromaOutcome
deriving DecidableEq, Repr

/-- Python truthiness of `results.get(key)` for a parallel-array key:
present and non-empty. -/
def optListTruthy {β : Type} : Option (List β) → Bool
  | some (_ :: _) => true
  | _ => false

/-- One iteration of the `_search_chroma` formatting loop; `none` models an
`IndexError` from one of the `[0][i]` accesses, which aborts the loop. -/
def chromaItem (r : ChromaResponse) (i : Nat) (doc_id : String) :
    Option SearchResult := do
  let q ← if optListTruthy r.documents then (r.documents.getD []).get? i
          else some ""
  let a ← if optListTruthy r.metadatas then
            ((r.metadatas.getD []).get? i).map fun m => m.answer.getD ""
          else some ""
  let s ← if optListTruthy r.distances then
            ((r.distances.getD []).get? i).map fun d => 1 - d
          else some 0
  some ⟨doc_id, q, a, s⟩

/-- The `for i, doc_id in enumerate(results["ids"][0])` loop of
`_search_chroma`, starting at position `i`; an `IndexError` (`none`) from
any item aborts the whole loop. -/
def chromaLoop (r : ChromaResponse) : Nat → List String → Option (List SearchResult)
  | _, [] => some []
  | i, doc_id :: rest => do
    let item ← chromaItem r i doc_id
    let others ← chromaLoop r (i + 1) rest
    some (item :: others)

/-- The full `_search_chroma` formatting loop over `enumerate(ids[0])`. -/
def chromaFormat (r : ChromaResponse) : Option (List SearchResult) :=
  chromaLoop r 0 r.ids

/-- `UltraFastVectorService._search_chroma`: format a response in the order
Chroma returned it with `similarity = 1 - distance`; a timeout or any
exception (including an `IndexError` while formatting) is caught and yields
`[]`. -/
def UltraFastVectorService.search_chroma (outcome : ChromaOutcome) :
    List SearchResult :=
  match outcome with
  | .timeout => []
  | .failed => []
  | .ok none => []
  | .ok (some r) =>
    match chromaFormat r with
    | some l => l
    | none => []

/-- Insert one `(index, similarity)` pair into a descending-sorted list,
after all entries with a strictly larger or equal similarity. -/
def insertDesc (x : Nat × ℚ) : List (Nat × ℚ) → List (Nat × ℚ)
  | [] => [x]
  | y :: ys => if y.2 ≤ x.2 then x :: y :: ys else y :: insertDesc x ys

/-- `indexed_similarities.sort(key=lambda x: x[1], reverse=True)`:
Python's sort is stable, and a stable descending sort by key is
extensionally the insertion sort that keeps earlier elements ahead of
later elements with the same key. -/
def sortDescStable : List (Nat × ℚ) → List (Nat × ℚ)
  | [] => []
  | x :: xs => insertDesc x (sortDescStable xs)

/-- `UltraFastVectorService._search_numpy_fallback`.  `cos` is the external
sklearn `cosine_similarity` kernel; the source enumerates the similarity
row, sorts it by descending similarity (stable), takes `top_k`, and keeps
entries whose index is a valid metadata position. -/
def UltraFastVectorService.search_numpy_fallback
    (qa_embeddings : List (List ℚ)) (qa_metadata : List QAMeta)
    (cos : List ℚ → List ℚ → ℚ) (query : List ℚ) (top_k : Nat) :
    List SearchResult :=
  if qa_embeddings.isEmpty then []
  else
    let similarities := qa_embeddings.map (cos query)
    let indexed := similarities.enum
    let sorted := sortDescStable indexed
    (sorted.take top_k).filterMap fun p =>
      if p.1 < qa_metadata.length then
        (qa_metadata.get? p.1).map fun m => mkResult m p.2
      else none

/-! ## The orchestrator `UltraFastVectorService.ultra_fast_search` -/

/-- Everything the body of `ultra_fast_search` reads: the service state,
the query, and the behaviour of the two external awaits (the FAISS search
and the Chroma call) plus the completion order of the fallback race. -/
structure OrchEnv where
  index_loaded : Bool
  memory_index_present : Bool
  memory_outcome : Except PyExn (List SearchResult)
  chroma_outcome : ChromaOutcome
  qa_embeddings : List (List ℚ)
  qa_metadata : List QAMeta
  cos : List ℚ → List ℚ → ℚ
  query : List ℚ
  top_k : Nat
  chroma_first : Bool

/-- What one run of the `ultra_fast_search` body did: its return value,
whether the memory index was searched, and whether the fallback race (and
hence the out-of-process Chroma backend) was started. -/
structure OrchOutput where
  output : List SearchResult
  memory_invoked : Bool
  backends_invoked : Bool
deriving DecidableEq, Repr

/-- The `asyncio.as_completed` loop of the body: take completed strategy
tasks in completion order; a raising task is caught and skipped, a falsy
(empty) result is skipped, the first non-empty result is returned; after
exhaustion the final fallback returns `[]`. -/
def raceLoop : List (Except PyExn (List SearchResult)) → List SearchResult
  | [] => []
  | o :: rest =>
    match o with
    | .error _ => raceLoop rest
    | .ok r => if r.isEmpty then raceLoop rest else r

/-- The parallel-fallback stage of the body: both backend tasks run; their
completion order is `chroma_first`.  Both strategies catch internally, so
their tasks complete with values. -/
def raceStage (env : OrchEnv) (memInvoked : Bool) : OrchOutput :=
  let chroma_res := UltraFastVectorService.search_chroma env.chroma_outcome
  let numpy_res := UltraFastVectorService.search_numpy_fallback
    env.qa_embeddings env.qa_metadata env.cos env.query env.top_k
  let outcomes := if env.chroma_first
    then [Except.ok chroma_res, Except.ok numpy_res]
    else [Except.ok numpy_res, Except.ok chroma_res]
  ⟨raceLoop outcomes, memInvoked, true⟩

/-- The body of `ultra_fast_search` (inside its decorators): strategy 1 is
the in-memory index when loaded — a non-empty result returns immediately
and the backends are never contacted; an exception there is caught; the
fallback race runs otherwise. -/
def UltraFastVectorService.ultra_fast_search_body (env : OrchEnv) : OrchOutput :=
  if env.index_loaded && env.memory_index_present then
    match env.memory_outcome with
    | .ok r => if r.isEmpty then raceStage env true else ⟨r, true, false⟩
    | .error _ => raceStage env true
  else raceStage env false

/-- The in-memory strategy yields nothing for this query: the index is not
loaded (or absent), or searching it raised, or it returned no results. -/
def memoryPathUnavailable (env : OrchEnv) : Prop :=
  (env.index_loaded = false ∨ env.memory_index_present = false)
  ∨ (∃ e, env.memory_outcome = .error e)
  ∨ env.memory_outcome = .ok []

/-! ## The decorator pipeline around `ultra_fast_search`

`ultra_fast_search` is defined under
`@circuit_breaker(CircuitBreakerConfig(failure_threshold=3, recovery_timeout=30))`
and `@cache_result("vector_search", ttl=1800)`.  The cache wrapper first
derives a fingerprint with `cache._generate_key(prefix, {"args": args,
"kwargs": kwargs})`, where `args` starts with the bound `self` — a plain
service object.  `_generate_key` runs `json.dumps` on that dict, so the
Python value universe and JSON serializability have to be modelled. -/

/-- Python values reaching `json.dumps` in `_generate_key`.  `obj` is an
arbitrary object with no JSON encoding (such as a service instance). -/
inductive PyVal where
  | str : String → PyVal
  | num : ℚ → PyVal
  | list : List PyVal → PyVal
  | dict : List (String × PyVal) → PyVal
  | obj : String → PyVal

mutual

/-- Whether `json.dumps` accepts a value: strings and numbers always,
containers when their elements are accepted, arbitrary objects never
(`TypeError: Object of type ... is not JSON serializable`). -/
def PyVal.serializable : PyVal → Bool
  | .str _ => true
  | .num _ => true
  | .obj _ => false
  | .list l => serializableList l
  | .dict es => serializableEntries es

/-- Serializability of every element of a JSON array. -/
def serializableList : List PyVal → Bool
  | [] => true
  | x :: xs => x.serializable && serializableList xs

/-- Serializability of every value of a JSON object. -/
def serializableEntries : List (String × PyVal) → Bool
  | [] => true
  | (_, v) :: es => v.serializable && serializableEntries es

end

/-- A rendering of a serializable value (the `sort_keys=True`
canonicalization of dict keys is omitted here; no claim depends on the
rendered text, only on whether `json.dumps` raises). -/
def PyVal.render : PyVal → String
  | .str s => "(str " ++ s ++ ")"
  | .num q => "(num " ++ toString q.num ++ "/" ++ toString q.den ++ ")"
  | .obj s => "(obj " ++ s ++ ")"
  | .list [] => "(list)"
  | .list (x :: xs) => "(cons " ++ x.render ++ " " ++ (PyVal.list xs).render ++ ")"
  | .dict [] => "(dict)"
  | .dict ((k, v) :: es) =>
    "(entry " ++ k ++ " " ++ v.render ++ " " ++ (PyVal.dict es).render ++ ")"

/-- `str(data)` for the non-container branch of `_generate_key`. -/
def PyVal.pyStr : PyVal → String
  | .str s => s
  | .num q => toString q.num ++ "/" ++ toString q.den
  | .obj s => "(" ++ s ++ " object)"
  | v => v.render

/-- `json.dumps(data, sort_keys=True)`, returning the `TypeError` the real
call raises on a non-serializable value. -/
def json_dumps (v : PyVal) : Except PyExn String :=
  if v.serializable then .ok v.render
  else .error (.typeError "Object of type UltraFastVectorService is not JSON serializable")

/-- Stand-in for `hashlib.md5(...).hexdigest()`; no claim depends on digest
values, so the digest of a string is the string itself. -/
def md5_hexdigest (s : String) : String := s

/-- `if isinstance(data, (dict, list))`. -/
def PyVal.isDictOrList : PyVal → Bool
  | .list _ => true
  | .dict _ => true
  | _ => false

/-- `UltraFastCache._generate_key`: serialize composite data (raising on
unserializable members), hash, and prepend the key prefix. -/
def UltraFastCache.generate_key (pre : String) (data : PyVal) :
    Except PyExn String :=
  if data.isDictOrList then
    (json_dumps data).map fun key_data => pre ++ ":" ++ md5_hexdigest key_data
  else .ok (pre ++ ":" ++ md5_hexdigest data.pyStr)

/-- The `{"args": args, "kwargs": kwargs}` dict the `cache_result` wrapper
fingerprints for `ultra_fast_search(self, query_embedding, top_k)`: `args`
holds the bound service instance first. -/
def ultraFastSearchArgs (query : List ℚ) (top_k : Nat) : PyVal :=
  .dict [("args", .list [.obj "UltraFastVectorService",
                         .list (query.map .num), .num (top_k : ℚ)]),
         ("kwargs", .dict [])]

/-- The `cache_result("vector_search", ttl=1800)` wrapper around the
`ultra_fast_search` body: derive the key (an exception there propagates),
try `cache.get`, otherwise run the body and `cache.set` the result. -/
def cache_result_wrapper (st : CacheState (List SearchResult)) (now : Int)
    (env : OrchEnv) (fault : Option RedisFault) (setFault : Bool) :
    Except PyExn (List SearchResult) × CacheState (List SearchResult) :=
  match UltraFastCache.generate_key "vector_search"
      (ultraFastSearchArgs env.query env.top_k) with
  | .error e => (.error e, st)
  | .ok key =>
    match UltraFastCache.get st key now fault with
    | (some cached, st1) => (.ok cached, st1)
    | (none, st1) =>
      let result := (UltraFastVectorService.ultra_fast_search_body env).output
      (.ok result, UltraFastCache.set st1 key result 1800 now setFault)

/-- The breaker configuration of the `@circuit_breaker` decorator on
`ultra_fast_search`; `expected_exception` keeps its `(Exception,)` default. -/
def vectorSearchBreakerConfig : CircuitBreakerConfig :=
  { failure_threshold := 3, recovery_timeout := 30,
    expected_exception := fun _ => true, success_threshold := 3 }

/-- `ultra_fast_search` as exposed to its caller: the breaker gate, then the
cache wrapper, then the breaker's outcome bookkeeping. -/
def ultra_fast_search_exposed (b : CircuitBreaker)
    (st : CacheState (List SearchResult)) (now : Int) (env : OrchEnv)
    (fault : Option RedisFault) (setFault : Bool) :
    Except PyExn (List SearchResult) × CircuitBreaker
      × CacheState (List SearchResult) :=
  match b.openGate now with
  | .error e => (.error e, b, st)
  | .ok b1 =>
    match cache_result_wrapper st now env fault setFault with
    | (res, st1) => (res, b1.record now res, st1)

/-! ## Breaker lemmas -/

/-- Unfolding of `_on_failure` into a single conditional. -/
theorem CircuitBreaker.on_failure_def (b : CircuitBreaker) (now : Int) :
    b.on_failure now =
      if b.config.failure_threshold ≤ b.failure_count + 1 then
        { b with failure_count := b.failure_count + 1, last_failure_time := now,
                 state := .opened }
      else
        { b with failure_count := b.failure_count + 1, last_failure_time := now } := rfl

/-- Unfolding of `_on_success` into conditionals. -/
theorem CircuitBreaker.on_success_def (b : CircuitBreaker) :
    b.on_success =
      if b.state = .halfOpen then
        if b.config.success_threshold ≤ b.success_count + 1 then
          { b with failure_count := 0, success_count := b.success_count + 1,
                   state := .closed }
        else
          { b with failure_count := 0, success_count := b.success_count + 1 }
      else { b with failure_count := 0 } := rfl

/-- A call that does not find the breaker OPEN runs the operation and
records its outcome. -/
theorem CircuitBreaker.call_not_opened {α : Type} (b : CircuitBreaker) (now : Int)
    (o : Except PyExn α) (h : b.state ≠ .opened) :
    b.call now o = ⟨o, b.record now o, true⟩ := by
  unfold CircuitBreaker.call CircuitBreaker.openGate
  simp [h]

/-- A run of counted failures whose length exactly exhausts the remaining
failure budget drives a CLOSED breaker to OPEN. -/
theorem callSeq_closed_failures :
    ∀ (fails : List (Int × Except PyExn Unit)) (b : CircuitBreaker),
      b.state = .closed →
      (∀ p ∈ fails, ∃ e, p.2 = Except.error e ∧ b.config.expected_exception e = true) →
      b.failure_count + fails.length = b.config.failure_threshold →
      fails ≠ [] →
      (b.callSeq fails).state = .opened
  | [], _, _, _, _, hne => absurd rfl hne
  | (t, o) :: rest, b, hcl, hexp, hcount, _ => by
    obtain ⟨e, ho, he⟩ := hexp (t, o) (List.mem_cons_self _ _)
    simp only at ho
    subst ho
    have hstep : (b.call t (Except.error e : Except PyExn Unit)).breaker
        = b.on_failure t := by
      rw [CircuitBreaker.call_not_opened b t _ (by rw [hcl]; intro hc; cases hc)]
      simp [CircuitBreaker.record, he]
    rw [CircuitBreaker.callSeq, hstep]
    rcases rest with _ | ⟨r, rs⟩
    · have hth : b.config.failure_threshold ≤ b.failure_count + 1 := by
        simp only [List.length_cons, List.length_nil] at hcount; omega
      rw [CircuitBreaker.callSeq, CircuitBreaker.on_failure_def, if_pos hth]
    · have hlt : b.failure_count + 1 < b.config.failure_threshold := by
        simp only [List.length_cons] at hcount; omega
      rw [CircuitBreaker.on_failure_def, if_neg (by omega)]
      exact callSeq_closed_failures (r :: rs) _ hcl
        (fun p hp => hexp p (List.mem_cons_of_mem _ hp))
        (by simp only [List.length_cons] at hcount ⊢; omega)
        (by simp)

/-- A run of successes whose length exactly exhausts the remaining success
budget drives a HALF_OPEN breaker to CLOSED. -/
theorem callSeq_halfopen_successes :
    ∀ (succs : List (Int × Except PyExn Unit)) (b : CircuitBreaker),
      b.state = .halfOpen →
      (∀ p ∈ succs, p.2 = Except.ok ()) →
      b.success_count + succs.length = b.config.success_threshold →
      succs ≠ [] →
      (b.callSeq succs).state = .closed
  | [], _, _, _, _, hne => absurd rfl hne
  | (t, o) :: rest, b, hho, hok, hcount, _ => by
    have ho := hok (t, o) (List.mem_cons_self _ _)
    simp only at ho
    subst ho
    have hstep : (b.call t (Except.ok () : Except PyExn Unit)).breaker
        = b.on_success := by
      rw [CircuitBreaker.call_not_opened b t _ (by rw [hho]; intro hc; cases hc)]
      rfl
    rw [CircuitBreaker.callSeq, hstep, CircuitBreaker.on_success_def, if_pos hho]
    rcases rest with _ | ⟨r, rs⟩
    · have hth : b.config.success_threshold ≤ b.success_count + 1 := by
        simp only [List.length_cons, List.length_nil] at hcount; omega
      rw [if_pos hth, CircuitBreaker.callSeq]
    · have hlt : b.success_count + 1 < b.config.success_threshold := by
        simp only [List.length_cons] at hcount; omega
      rw [if_neg (by omega)]
      exact callSeq_halfopen_successes (r :: rs) _ hho
        (fun p hp => hok p (List.mem_cons_of_mem _ hp))
        (by simp only [List.length_cons] at hcount ⊢; omega)
        (by simp)

/-- C1 (amended): for a breaker with `failure_threshold = N`,
`recovery_timeout = R` and `success_threshold = M`: (1) from CLOSED, N
consecutive counted failures reach OPEN; (2) while OPEN with elapsed time
under R a call fails immediately with the breaker-open error and the
wrapped operation is not invoked; (3) the first call once R has elapsed
passes the gate with the breaker moved to HALF_OPEN (and resets the
success counter) before the operation runs; (4) M consecutive successes
from a freshly entered HALF_OPEN reach CLOSED; (5) a counted failure while
HALF_OPEN reopens the breaker exactly when it brings `failure_count` to at
least N — in particular the first failure after entering HALF_OPEN (where
`failure_count` is still at its OPEN-time value) reopens, but once a
HALF_OPEN success has reset `failure_count` to 0, a single failure leaves
the breaker HALF_OPEN whenever N is at least 2. -/
theorem C1_breaker_transition_law :
    (∀ (b : CircuitBreaker) (fails : List (Int × Except PyExn Unit)),
      b.state = .closed → b.failure_count = 0 →
      1 ≤ b.config.failure_threshold →
      fails.length = b.config.failure_threshold →
      (∀ p ∈ fails, ∃ e, p.2 = Except.error e ∧ b.config.expected_exception e = true) →
      (b.callSeq fails).state = .opened)
  ∧ (∀ (α : Type) (b : CircuitBreaker) (now : Int) (o : Except PyExn α),
      b.state = .opened → now - b.last_failure_time < b.config.recovery_timeout →
      b.call now o =
        ⟨.error (.generic "Circuit breaker is OPEN - requests blocked"), b, false⟩)
  ∧ (∀ (α : Type) (b : CircuitBreaker) (now : Int) (o : Except PyExn α),
      b.state = .opened → b.config.recovery_timeout ≤ now - b.last_failure_time →
      b.openGate now = .ok { b with state := .halfOpen, success_count := 0 }
        ∧ (b.call now o).invoked = true)
  ∧ (∀ (b : CircuitBreaker) (succs : List (Int × Except PyExn Unit)),
      b.state = .halfOpen → b.success_count = 0 →
      1 ≤ b.config.success_threshold →
      succs.length = b.config.success_threshold →
      (∀ p ∈ succs, p.2 = Except.ok ()) →
      (b.callSeq succs).state = .closed)
  ∧ (∀ (b : CircuitBreaker) (now : Int) (e : PyExn),
      b.state = .halfOpen → b.config.expected_exception e = true →
      ((b.call now (Except.error e : Except PyExn Unit)).breaker.state = .opened ↔
        b.config.failure_threshold ≤ b.failure_count + 1)) := by
  refine ⟨?_, ?_, ?_, ?_, ?_⟩
  · intro b fails hcl hfc h1 hlen hexp
    exact callSeq_closed_failures fails b hcl hexp (by omega) (by
      intro hnil; rw [hnil] at hlen; simp at hlen; omega)
  · intro α b now o hop hlt
    have hnle : ¬ b.config.recovery_timeout ≤ now - b.last_failure_time := by omega
    unfold CircuitBreaker.call CircuitBreaker.openGate
    simp [hop, hnle]
  · intro α b now o hop hle
    have hg : b.openGate now = .ok { b with state := .halfOpen, success_count := 0 } := by
      unfold CircuitBreaker.openGate
      simp [hop, hle]
    refine ⟨hg, ?_⟩
    unfold CircuitBreaker.call
    rw [hg]
  · intro b succs hho hsc h1 hlen hok
    exact callSeq_halfopen_successes succs b hho hok (by omega) (by
      intro hnil; rw [hnil] at hlen; simp at hlen; omega)
  · intro b now e hho hexp
    rw [CircuitBreaker.call_not_opened b now (Except.error e : Except PyExn Unit)
      (by rw [hho]; intro hc; cases hc)]
    simp only [CircuitBreaker.record, hexp, if_pos, CircuitBreaker.on_failure_def]
    constructor
    · intro hst
      by_contra hnle
      rw [if_neg hnle] at hst
      rw [hho] at hst
      cases hst
    · intro hle
      rw [if_pos hle]

/-- Concrete breaker configuration used by the C1 refutation and witness:
`failure_threshold = 2`, `recovery_timeout = 30`, `success_threshold = 2`,
default `(Exception,)` expected set. -/
def cexConfig : CircuitBreakerConfig :=
  { failure_threshold := 2, recovery_timeout := 30,
    expected_exception := fun _ => true, success_threshold := 2 }

/-- A fresh breaker over `cexConfig`. -/
def cexBreaker : CircuitBreaker := { config := cexConfig }

/-- C1 counterexample to the claim as stated: two counted failures open the
breaker; after the recovery timeout a success moves it through HALF_OPEN
(resetting `failure_count`); the next counted failure then leaves the state
HALF_OPEN, not OPEN, refuting "any single counted failure while HalfOpen
moves the state back to Open". -/
theorem C1_cex :
    (cexBreaker.callSeq
      [(0, .error .apiError), (1, .error .apiError),
       (40, .ok ()), (41, .error .apiError)]).state = .halfOpen
    ∧ CircuitState.halfOpen ≠ CircuitState.opened := by
  constructor
  · decide
  · decide

/-- A breaker over `cexConfig` that has just tripped OPEN at time 0. -/
def openedBreaker : CircuitBreaker :=
  { config := cexConfig, failure_count := 2, last_failure_time := 0,
    state := .opened }

/-- A breaker over `cexConfig` that has just entered HALF_OPEN. -/
def halfOpenBreaker : CircuitBreaker :=
  { config := cexConfig, failure_count := 2, success_count := 0,
    last_failure_time := 1, state := .halfOpen }

/-- Witness: the conjuncts of `C1_breaker_transition_law` applied at
concrete breakers, timestamps and call sequences. -/
theorem C1_witness :
    ((cexBreaker.callSeq [(0, .error .apiError), (1, .error .apiError)]).state
        = .opened)
    ∧ (openedBreaker.call 10 (Except.ok ()) =
        ⟨.error (.generic "Circuit breaker is OPEN - requests blocked"),
          openedBreaker, false⟩)
    ∧ (openedBreaker.openGate 40 =
        .ok { openedBreaker with state := .halfOpen, success_count := 0 })
    ∧ ((halfOpenBreaker.callSeq [(40, .ok ()), (41, .ok ())]).state = .closed)
    ∧ ((halfOpenBreaker.call 40 (Except.error .apiError : Except PyExn Unit)).breaker.state
        = .opened) := by
  refine ⟨?_, ?_, ?_, ?_, ?_⟩
  · exact C1_breaker_transition_law.1 cexBreaker
      [(0, .error .apiError), (1, .error .apiError)] rfl rfl (by decide) rfl
      (by intro p hp
          fin_cases hp <;> exact ⟨.apiError, rfl, rfl⟩)
  · exact C1_breaker_transition_law.2.1 Unit openedBreaker 10 (Except.ok ())
      rfl (by decide)
  · exact (C1_breaker_transition_law.2.2.1 Unit openedBreaker 40 (Except.ok ())
      rfl (by decide)).1
  · exact C1_breaker_transition_law.2.2.2.1 halfOpenBreaker
      [(40, .ok ()), (41, .ok ())] rfl rfl (by decide) rfl
      (by intro p hp; fin_cases hp <;> rfl)
  · exact (C1_breaker_transition_law.2.2.2.2 halfOpenBreaker 40 .apiError
      rfl rfl).mpr (by decide)

/-! ## C8: only configured exception kinds count -/

/-- The `expected_exception` tuple configured on the embedding service's
breaker: `(openai.APIError, openai.RateLimitError, openai.APIConnectionError)`. -/
def openaiExpected : PyExn → Bool
  | .apiError => true
  | .rateLimitError => true
  | .apiConnectionError => true
  | _ => false

/-- The `@circuit_breaker` configuration on `create_embedding_ultra_fast`. -/
def openaiBreakerConfig : CircuitBreakerConfig :=
  { failure_threshold := 3, recovery_timeout := 30,
    expected_exception := openaiExpected, success_threshold := 3 }

/-- C8 (amended): `CircuitBreaker.call` counts only exceptions in the
configured `expected_exception` set; an exception outside the set
propagates unchanged and leaves `failure_count`, `last_failure_time`,
`success_count` and the state untouched — except that a call that finds the
breaker OPEN past its recovery timeout still performs the lazy
OPEN → HALF_OPEN transition (resetting `success_count`) before invoking the
operation, so the state observed after such a call is HALF_OPEN rather
than the original OPEN.  The `ValueError` the embed body raises on empty
text is outside the embedding breaker's configured set. -/
theorem C8_expected_exceptions_only :
    (∀ (b : CircuitBreaker) (now : Int) (e : PyExn),
      b.config.expected_exception e = false → b.state ≠ .opened →
      b.call now (Except.error e : Except PyExn Unit) = ⟨.error e, b, true⟩)
  ∧ (∀ (b : CircuitBreaker) (now : Int) (e : PyExn),
      b.config.expected_exception e = false → b.state = .opened →
      b.config.recovery_timeout ≤ now - b.last_failure_time →
      b.call now (Except.error e : Except PyExn Unit) =
        ⟨.error e, { b with state := .halfOpen, success_count := 0 }, true⟩)
  ∧ (∀ (b : CircuitBreaker) (now : Int) (e : PyExn),
      b.config.expected_exception e = true → b.state ≠ .opened →
      (b.call now (Except.error e : Except PyExn Unit)).breaker
        = b.on_failure now)
  ∧ openaiExpected (.valueError "Text cannot be empty") = false := by
  refine ⟨?_, ?_, ?_, rfl⟩
  · intro b now e hexp hst
    rw [CircuitBreaker.call_not_opened b now _ hst]
    simp [CircuitBreaker.record, hexp]
  · intro b now e hexp hst hle
    have hg : b.openGate now = .ok { b with state := .halfOpen, success_count := 0 } := by
      unfold CircuitBreaker.openGate
      simp [hst, hle]
    unfold CircuitBreaker.call
    rw [hg]
    simp [CircuitBreaker.record, hexp]
  · intro b now e hexp hst
    rw [CircuitBreaker.call_not_opened b now _ hst]
    simp [CircuitBreaker.record, hexp]

/-- A fresh breaker with the embedding service's configuration. -/
def openaiBreaker : CircuitBreaker := { config := openaiBreakerConfig }

/-- C8 counterexample to the claim as stated: trip the embedding breaker
OPEN with three counted failures, wait out the recovery timeout, then make
a call whose operation raises the (non-expected)
`ValueError("Text cannot be empty")`.  The exception propagates unchanged
and `failure_count` / `last_failure_time` are untouched, but the breaker
state after the call is HALF_OPEN — it was modified (by the lazy gate
transition), refuting "leaves ... the breaker state unmodified". -/
theorem C8_cex :
    ((openaiBreaker.callSeq
        [(0, .error .apiError), (1, .error .apiError), (2, .error .apiError)]).state
      = .opened)
    ∧ ((openaiBreaker.callSeq
          [(0, .error .apiError), (1, .error .apiError), (2, .error .apiError)]).call 32
          (Except.error (.valueError "Text cannot be empty") : Except PyExn Unit)).result
        = .error (.valueError "Text cannot be empty")
    ∧ ((openaiBreaker.callSeq
          [(0, .error .apiError), (1, .error .apiError), (2, .error .apiError)]).call 32
          (Except.error (.valueError "Text cannot be empty") : Except PyExn Unit)).breaker.failure_count
        = 3
    ∧ ((openaiBreaker.callSeq
          [(0, .error .apiError), (1, .error .apiError), (2, .error .apiError)]).call 32
          (Except.error (.valueError "Text cannot be empty") : Except PyExn Unit)).breaker.last_failure_time
        = 2
    ∧ ((openaiBreaker.callSeq
          [(0, .error .apiError), (1, .error .apiError), (2, .error .apiError)]).call 32
          (Except.error (.valueError "Text cannot be empty") : Except PyExn Unit)).breaker.state
        = .halfOpen
    ∧ CircuitState.halfOpen ≠ CircuitState.opened := by
  refine ⟨by decide, by rfl, by decide, by decide, by decide, by decide⟩

/-- Witness: the conjuncts of `C8_expected_exceptions_only` applied at
concrete breakers. -/
theorem C8_witness :
    (openaiBreaker.call 5 (Except.error (.valueError "bad") : Except PyExn Unit)
      = ⟨.error (.valueError "bad"), openaiBreaker, true⟩)
    ∧ ({ openaiBreaker with state := .opened }.call 31
          (Except.error (.valueError "bad") : Except PyExn Unit)
        = ⟨.error (.valueError "bad"),
            { openaiBreaker with state := .halfOpen, success_count := 0 }, true⟩)
    ∧ ((openaiBreaker.call 5 (Except.error .apiError : Except PyExn Unit)).breaker
        = openaiBreaker.on_failure 5) := by
  refine ⟨?_, ?_, ?_⟩
  · exact C8_expected_exceptions_only.1 openaiBreaker 5 (.valueError "bad") rfl
      (by intro h; cases h)
  · exact C8_expected_exceptions_only.2.1 _ 31 (.valueError "bad") rfl rfl (by decide)
  · exact C8_expected_exceptions_only.2.2.1 openaiBreaker 5 .apiError rfl
      (by intro h; cases h)

/-! ## C10: cache statistics counters -/

/-- The Redis phase bumps exactly one of hits/misses and never the request
counter; all other fields of the counters triple are preserved. -/
theorem getRedis_stats {α : Type} (st : CacheState α) (key : String) (now : Int)
    (fault : Option RedisFault) :
    (UltraFastCache.getRedis st key now fault).2.total_requests = st.total_requests
    ∧ (((UltraFastCache.getRedis st key now fault).2.hits = st.hits + 1
          ∧ (UltraFastCache.getRedis st key now fault).2.misses = st.misses)
       ∨ ((UltraFastCache.getRedis st key now fault).2.misses = st.misses + 1
          ∧ (UltraFastCache.getRedis st key now fault).2.hits = st.hits)) := by
  unfold UltraFastCache.getRedis
  rcases fault with _ | f
  · split
    · rcases hr : redisLookup st.redis_store key now with _ | v <;> simp [hr]
    · simp
  · split <;> simp

/-- C10: every completed `UltraFastCache.get` increments `total_requests`
by exactly one and exactly one of `hits`/`misses` by exactly one, on every
path (tier-1 hit, tier-2 hit, expired entry, tier-2 fault, total miss);
`set` and `invalidate_pattern` leave all three counters unchanged
(`get_stats` only reads them); therefore `hits + misses = total_requests`
is preserved by every operation. -/
theorem C10_stats_counters :
    (∀ (α : Type) (st : CacheState α) (key : String) (now : Int)
        (fault : Option RedisFault),
      (UltraFastCache.get st key now fault).2.total_requests = st.total_requests + 1
      ∧ (((UltraFastCache.get st key now fault).2.hits = st.hits + 1
            ∧ (UltraFastCache.get st key now fault).2.misses = st.misses)
         ∨ ((UltraFastCache.get st key now fault).2.misses = st.misses + 1
            ∧ (UltraFastCache.get st key now fault).2.hits = st.hits)))
  ∧ (∀ (α : Type) (st : CacheState α) (key : String) (data : α) (ttl now : Int)
        (setFault : Bool),
      (UltraFastCache.set st key data ttl now setFault).hits = st.hits
      ∧ (UltraFastCache.set st key data ttl now setFault).misses = st.misses
      ∧ (UltraFastCache.set st key data ttl now setFault).total_requests
          = st.total_requests)
  ∧ (∀ (α : Type) (st : CacheState α) (pattern : String) (redisFault : Bool),
      (UltraFastCache.invalidate_pattern st pattern redisFault).hits = st.hits
      ∧ (UltraFastCache.invalidate_pattern st pattern redisFault).misses = st.misses
      ∧ (UltraFastCache.invalidate_pattern st pattern redisFault).total_requests
          = st.total_requests)
  ∧ (∀ (α : Type) (st : CacheState α) (key : String) (now : Int)
        (fault : Option RedisFault),
      st.hits + st.misses = st.total_requests →
      (UltraFastCache.get st key now fault).2.hits
          + (UltraFastCache.get st key now fault).2.misses
        = (UltraFastCache.get st key now fault).2.total_requests) := by
  have hget : ∀ (α : Type) (st : CacheState α) (key : String) (now : Int)
      (fault : Option RedisFault),
      (UltraFastCache.get st key now fault).2.total_requests = st.total_requests + 1
      ∧ (((UltraFastCache.get st key now fault).2.hits = st.hits + 1
            ∧ (UltraFastCache.get st key now fault).2.misses = st.misses)
         ∨ ((UltraFastCache.get st key now fault).2.misses = st.misses + 1
            ∧ (UltraFastCache.get st key now fault).2.hits = st.hits)) := by
    intro α st key now fault
    rcases hd : dictGet st.memory_cache key with _ | entry
    · have hge : UltraFastCache.get st key now fault
          = UltraFastCache.getRedis
              { st with total_requests := st.total_requests + 1 } key now fault := by
        unfold UltraFastCache.get
        simp only [hd]
      rw [hge]
      exact getRedis_stats _ key now fault
    · by_cases hex : now < entry.expires
      · have hge : UltraFastCache.get st key now fault
            = (some entry.data,
                { st with total_requests := st.total_requests + 1,
                          hits := st.hits + 1 }) := by
          unfold UltraFastCache.get
          simp only [hd, if_pos hex]
        rw [hge]
        simp
      · have hge : UltraFastCache.get st key now fault
            = UltraFastCache.getRedis
                { st with total_requests := st.total_requests + 1,
                          memory_cache := dictDel st.memory_cache key }
                key now fault := by
          unfold UltraFastCache.get
          simp only [hd, if_neg hex]
        rw [hge]
        exact getRedis_stats _ key now fault
  refine ⟨hget, ?_, ?_, ?_⟩
  · intro α st key data ttl now setFault
    simp only [UltraFastCache.set]
    split_ifs <;> simp
  · intro α st pattern redisFault
    simp only [UltraFastCache.invalidate_pattern]
    split_ifs <;> simp
  · intro α st key now fault hinv
    rcases hget α st key now fault with ⟨ht, ⟨hh, hm⟩ | ⟨hm, hh⟩⟩ <;> omega

/-- Witness: the invariant conjunct of `C10_stats_counters` applied at a
concrete cache state and lookup. -/
theorem C10_witness :
    ((UltraFastCache.get
        (⟨[("k", ⟨"A", 10⟩)], false, [], 2, 3, 5⟩ : CacheState String)
        "k" 4 none).2.hits
      + (UltraFastCache.get
        (⟨[("k", ⟨"A", 10⟩)], false, [], 2, 3, 5⟩ : CacheState String)
        "k" 4 none).2.misses
      = (UltraFastCache.get
        (⟨[("k", ⟨"A", 10⟩)], false, [], 2, 3, 5⟩ : CacheState String)
        "k" 4 none).2.total_requests) :=
  C10_stats_counters.2.2.2 String ⟨[("k", ⟨"A", 10⟩)], false, [], 2, 3, 5⟩
    "k" 4 none (by decide)

/-! ## C3: TTL behaviour of the two-tier cache -/

/-- Lookup after an update of the same key. -/
theorem dictGet_dictSet_self {β : Type} (l : List (String × β)) (k : String) (v : β) :
    dictGet (dictSet l k v) k = some v := by
  induction l with
  | nil => simp [dictSet, dictGet]
  | cons h t ih =>
    obtain ⟨k1, v1⟩ := h
    by_cases hk : k1 = k
    · simp [dictSet, dictGet, hk]
    · simp [dictSet, dictGet, hk, ih]

/-- `set` always writes the memory tier with the capped expiry. -/
theorem set_memory_cache {α : Type} (st : CacheState α) (key : String) (data : α)
    (ttl now : Int) (setFault : Bool) :
    (UltraFastCache.set st key data ttl now setFault).memory_cache
      = dictSet st.memory_cache key ⟨data, now + min ttl 300⟩ := by
  simp only [UltraFastCache.set]
  split_ifs <;> rfl

/-- `set` never changes whether Redis is configured. -/
theorem set_redis_available {α : Type} (st : CacheState α) (key : String) (data : α)
    (ttl now : Int) (setFault : Bool) :
    (UltraFastCache.set st key data ttl now setFault).redis_available
      = st.redis_available := by
  simp only [UltraFastCache.set]
  split_ifs <;> rfl

/-- With Redis configured and the write succeeding, `set` stores the full
TTL in the Redis tier. -/
theorem set_redis_store {α : Type} (st : CacheState α) (key : String) (data : α)
    (ttl now : Int) (hav : st.redis_available = true) :
    (UltraFastCache.set st key data ttl now false).redis_store
      = dictSet st.redis_store key ⟨data, now + ttl⟩ := by
  simp [UltraFastCache.set, hav]

/-- A live memory entry is served by `get` without consulting Redis. -/
theorem get_memory_hit {α : Type} (st : CacheState α) (key : String) (now : Int)
    (fault : Option RedisFault) (e : CacheEntry α)
    (hd : dictGet st.memory_cache key = some e) (hlive : now < e.expires) :
    UltraFastCache.get st key now fault
      = (some e.data,
          { st with total_requests := st.total_requests + 1, hits := st.hits + 1 }) := by
  unfold UltraFastCache.get
  simp only [hd, if_pos hlive]

/-- An expired memory entry is deleted and `get` falls through to Redis. -/
theorem get_memory_expired {α : Type} (st : CacheState α) (key : String) (now : Int)
    (fault : Option RedisFault) (e : CacheEntry α)
    (hd : dictGet st.memory_cache key = some e) (hexp : ¬ now < e.expires) :
    UltraFastCache.get st key now fault
      = UltraFastCache.getRedis
          { st with total_requests := st.total_requests + 1,
                    memory_cache := dictDel st.memory_cache key } key now fault := by
  unfold UltraFastCache.get
  simp only [hd, if_neg hexp]

/-- C3 (amended): after `set(k, v, ttl = T)` at time `t0`: (1) a `get`
before `t0 + min T 300` returns exactly `v` (the memory tier caps the TTL
at 300 s); (2) in memory-only mode (no Redis) a `get` at or after
`t0 + min T 300` returns absent, even when `T` has not yet elapsed; (3)
with Redis configured and responsive, a `get` before `t0 + T` returns
exactly `v`; (4) a single `get` at or after `t0 + T` (with no intervening
`get`) returns absent; but a Redis hit re-promotes the entry into the
memory tier with a fresh 300 s expiry, which can serve `v` after `T` has
elapsed; and (5) the memory tier never serves an entry whose recorded
expiry has passed (in memory-only mode such a `get` returns absent). -/
theorem C3_ttl_behaviour :
    (∀ (α : Type) (st : CacheState α) (k : String) (v : α) (T t0 t1 : Int)
        (fault : Option RedisFault) (sf : Bool),
      t1 < t0 + min T 300 →
      (UltraFastCache.get (UltraFastCache.set st k v T t0 sf) k t1 fault).1 = some v)
  ∧ (∀ (α : Type) (st : CacheState α) (k : String) (v : α) (T t0 t1 : Int)
        (fault : Option RedisFault) (sf : Bool),
      st.redis_available = false → t0 + min T 300 ≤ t1 →
      (UltraFastCache.get (UltraFastCache.set st k v T t0 sf) k t1 fault).1 = none)
  ∧ (∀ (α : Type) (st : CacheState α) (k : String) (v : α) (T t0 t1 : Int),
      st.redis_available = true → t1 < t0 + T →
      (UltraFastCache.get (UltraFastCache.set st k v T t0 false) k t1 none).1 = some v)
  ∧ (∀ (α : Type) (st : CacheState α) (k : String) (v : α) (T t0 t1 : Int),
      t0 + T ≤ t1 →
      (UltraFastCache.get (UltraFastCache.set st k v T t0 false) k t1 none).1 = none)
  ∧ (∀ (α : Type) (st : CacheState α) (k : String) (now : Int)
        (fault : Option RedisFault) (e : CacheEntry α),
      dictGet st.memory_cache k = some e → e.expires ≤ now →
      st.redis_available = false →
      (UltraFastCache.get st k now fault).1 = none) := by
  have hmem : ∀ (α : Type) (st : CacheState α) (k : String) (v : α)
      (T t0 : Int) (sf : Bool),
      dictGet (UltraFastCache.set st k v T t0 sf).memory_cache k
        = some ⟨v, t0 + min T 300⟩ := by
    intro α st k v T t0 sf
    rw [set_memory_cache]
    exact dictGet_dictSet_self _ _ _
  have hredis_none : ∀ (α : Type) (st : CacheState α) (k : String) (now : Int)
      (fault : Option RedisFault),
      st.redis_available = false →
      (UltraFastCache.getRedis st k now fault).1 = none := by
    intro α st k now fault hav
    unfold UltraFastCache.getRedis
    rw [hav]
    simp
  refine ⟨?_, ?_, ?_, ?_, ?_⟩
  · intro α st k v T t0 t1 fault sf hlt
    rw [get_memory_hit _ _ _ _ _ (hmem α st k v T t0 sf) hlt]
  · intro α st k v T t0 t1 fault sf hav hle
    rw [get_memory_expired _ _ _ _ _ (hmem α st k v T t0 sf) (by simp only; omega)]
    exact hredis_none _ _ _ _ _ (by rw [set_redis_available]; exact hav)
  · intro α st k v T t0 t1 hav hlt
    by_cases hm : t1 < t0 + min T 300
    · rw [get_memory_hit _ _ _ _ _ (hmem α st k v T t0 false) hm]
    · rw [get_memory_expired _ _ _ _ _ (hmem α st k v T t0 false) hm]
      unfold UltraFastCache.getRedis
      have hav2 : (UltraFastCache.set st k v T t0 false).redis_available = true := by
        rw [set_redis_available]; exact hav
      simp only [hav2, if_pos]
      rw [show (UltraFastCache.set st k v T t0 false).redis_store
            = dictSet st.redis_store k ⟨v, t0 + T⟩ from set_redis_store st k v T t0 hav]
      unfold redisLookup
      rw [dictGet_dictSet_self]
      simp only [if_pos hlt]
  · intro α st k v T t0 t1 hle
    have hminle : min T 300 ≤ T := min_le_left _ _
    rw [get_memory_expired _ _ _ _ _ (hmem α st k v T t0 false) (by simp only; omega)]
    unfold UltraFastCache.getRedis
    by_cases hav : (UltraFastCache.set st k v T t0 false).redis_available = true
    · simp only [hav, if_pos]
      have hav0 : st.redis_available = true := by rw [← set_redis_available st k v T t0 false]; exact hav
      rw [show (UltraFastCache.set st k v T t0 false).redis_store
            = dictSet st.redis_store k ⟨v, t0 + T⟩ from set_redis_store st k v T t0 hav0]
      unfold redisLookup
      rw [dictGet_dictSet_self]
      simp only
      rw [if_neg (by omega : ¬ t1 < t0 + T)]
    · simp only [Bool.not_eq_true] at hav
      rw [hav]
      simp
  · intro α st k now fault e hd hexp hav
    rw [get_memory_expired _ _ _ _ _ hd (by omega)]
    exact hredis_none _ _ _ _ _ hav

/-- A fresh memory-only cache. -/
def memOnlyCache : CacheState String := ⟨[], false, [], 0, 0, 0⟩

/-- A fresh cache with Redis configured. -/
def redisCache : CacheState String := ⟨[], true, [], 0, 0, 0⟩

/-- C3 counterexample to the claim as stated, in both directions: (1) in
memory-only mode, `set("k", "A", ttl=3600)` at time 0 followed by `get` at
time 400 returns absent although 400 < 3600 (the memory tier capped the
TTL at 300); (2) with Redis, `set("k", "A", ttl=400)` at time 0, a `get`
at time 350 (a Redis hit that re-promotes the entry with a fresh 300 s
memory expiry) followed by a `get` at time 450 returns the value although
the TTL of 400 has elapsed. -/
theorem C3_cex :
    ((UltraFastCache.get (UltraFastCache.set memOnlyCache "k" "A" 3600 0 false)
        "k" 400 none).1 = none ∧ (400 : Int) < 3600)
    ∧ ((UltraFastCache.get
          (UltraFastCache.get
            (UltraFastCache.set redisCache "k" "A" 400 0 false) "k" 350 none).2
          "k" 450 none).1 = some "A" ∧ (400 : Int) < 450) := by
  refine ⟨⟨by decide, by decide⟩, ⟨by decide, by decide⟩⟩

/-- Witness: the conjuncts of `C3_ttl_behaviour` applied at concrete
caches, keys and times. -/
theorem C3_witness :
    ((UltraFastCache.get (UltraFastCache.set memOnlyCache "k" "A" 3600 0 false)
        "k" 200 none).1 = some "A")
    ∧ ((UltraFastCache.get (UltraFastCache.set memOnlyCache "k" "A" 3600 0 false)
        "k" 300 none).1 = none)
    ∧ ((UltraFastCache.get (UltraFastCache.set redisCache "k" "A" 3600 0 false)
        "k" 2000 none).1 = some "A")
    ∧ ((UltraFastCache.get (UltraFastCache.set redisCache "k" "A" 3600 0 false)
        "k" 3600 none).1 = none)
    ∧ ((UltraFastCache.get
          (⟨[("k", ⟨"A", 10⟩)], false, [], 0, 0, 0⟩ : CacheState String)
          "k" 10 none).1 = none) := by
  refine ⟨?_, ?_, ?_, ?_, ?_⟩
  · exact C3_ttl_behaviour.1 String memOnlyCache "k" "A" 3600 0 200 none false
      (by decide)
  · exact C3_ttl_behaviour.2.1 String memOnlyCache "k" "A" 3600 0 300 none false
      rfl (by decide)
  · exact C3_ttl_behaviour.2.2.1 String redisCache "k" "A" 3600 0 2000 rfl
      (by decide)
  · exact C3_ttl_behaviour.2.2.2.1 String redisCache "k" "A" 3600 0 3600
      (by decide)
  · exact C3_ttl_behaviour.2.2.2.2 String
      ⟨[("k", ⟨"A", 10⟩)], false, [], 0, 0, 0⟩ "k" 10 none ⟨"A", 10⟩ rfl
      (by decide) rfl

/-! ## Ordering and score lemmas for the strategies -/

/-- Membership after one insertion step of the stable sort. -/
theorem mem_insertDesc {z x : Nat × ℚ} {l : List (Nat × ℚ)} :
    z ∈ insertDesc x l ↔ z = x ∨ z ∈ l := by
  induction l with
  | nil => simp [insertDesc]
  | cons y ys ih =>
    by_cases h : y.2 ≤ x.2
    · simp only [insertDesc, if_pos h, List.mem_cons]
    · simp only [insertDesc, if_neg h, List.mem_cons, ih]
      tauto

/-- The stable sort permutes membership. -/
theorem mem_sortDescStable {z : Nat × ℚ} {l : List (Nat × ℚ)} :
    z ∈ sortDescStable l ↔ z ∈ l := by
  induction l with
  | nil => simp [sortDescStable]
  | cons x xs ih =>
    simp only [sortDescStable, mem_insertDesc, ih, List.mem_cons]

/-- The strict order realised by the stable descending sort: strictly
larger similarity first; on equal similarities, smaller original index
(first-seen) first. -/
def rankBefore (p q : Nat × ℚ) : Prop :=
  q.2 < p.2 ∨ (p.2 = q.2 ∧ p.1 < q.1)

/-- Inserting an element whose index precedes every index in a
`rankBefore`-sorted list keeps the list sorted. -/
theorem pairwise_insertDesc {x : Nat × ℚ} {l : List (Nat × ℚ)}
    (hl : l.Pairwise rankBefore) (hidx : ∀ y ∈ l, x.1 < y.1) :
    (insertDesc x l).Pairwise rankBefore := by
  induction l with
  | nil => simp [insertDesc, List.pairwise_cons]
  | cons y ys ih =>
    rcases List.pairwise_cons.mp hl with ⟨hy, hys⟩
    by_cases h : y.2 ≤ x.2
    · rw [insertDesc, if_pos h]
      refine List.pairwise_cons.mpr ⟨?_, hl⟩
      intro z hz
      rcases List.mem_cons.mp hz with rfl | hz2
      · rcases lt_or_eq_of_le h with hlt | heq
        · exact Or.inl hlt
        · exact Or.inr ⟨heq.symm, hidx _ (List.mem_cons_self _ _)⟩
      · rcases hy z hz2 with hlt | ⟨heq, hidxlt⟩
        · exact Or.inl (lt_of_lt_of_le hlt h)
        · rcases lt_or_eq_of_le h with hlt2 | heq2
          · exact Or.inl (heq ▸ hlt2)
          · exact Or.inr ⟨by rw [← heq2, heq], hidx z (List.mem_cons_of_mem _ hz2)⟩
    · rw [insertDesc, if_neg h]
      refine List.pairwise_cons.mpr
        ⟨?_, ih hys fun y2 hy2 => hidx y2 (List.mem_cons_of_mem _ hy2)⟩
      intro z hz
      rcases mem_insertDesc.mp hz with rfl | hz2
      · exact Or.inl (lt_of_not_le h)
      · exact hy z hz2

/-- A list with strictly increasing first components (as `enumerate`
produces) is sorted by `rankBefore` after the stable descending sort:
descending similarity, ties in first-seen index order. -/
theorem pairwise_sortDescStable {l : List (Nat × ℚ)}
    (hl : l.Pairwise fun p q => p.1 < q.1) :
    (sortDescStable l).Pairwise rankBefore := by
  induction l with
  | nil => simp [sortDescStable]
  | cons x xs ih =>
    rcases List.pairwise_cons.mp hl with ⟨hx, hxs⟩
    exact pairwise_insertDesc (ih hxs)
      fun y hy => hx y (mem_sortDescStable.mp hy)

/-- `enumerate` yields strictly increasing indices. -/
theorem pairwise_enumFrom_fst {β : Type} (l : List β) (n : Nat) :
    (l.enumFrom n).Pairwise fun p q => p.1 < q.1 := by
  induction l generalizing n with
  | nil => simp
  | cons a as ih =>
    rw [List.enumFrom_cons]
    refine List.pairwise_cons.mpr ⟨?_, ih (n + 1)⟩
    intro p hp
    obtain ⟨i, x⟩ := p
    have h := List.mem_enumFrom hp
    simp only
    omega

/-- A formatted Chroma item carries the response id of its position. -/
theorem chromaItem_id {r : ChromaResponse} {i : Nat} {d : String}
    {it : SearchResult} (h : chromaItem r i d = some it) : it.id = d := by
  unfold chromaItem at h
  split_ifs at h
  all_goals
    simp only [Option.bind_eq_bind, Option.bind_eq_some, Option.some.injEq] at h
    obtain ⟨q, hq, a, ha, sv, hs, heq⟩ := h
    rw [← heq]

/-- The Chroma formatting loop emits exactly the ids of its segment, in
response order — it neither drops, reorders, nor adds rows. -/
theorem chromaLoop_ids (r : ChromaResponse) :
    ∀ (seg : List String) (i : Nat) (res : List SearchResult),
      chromaLoop r i seg = some res → res.map (fun t => t.id) = seg := by
  intro seg
  induction seg with
  | nil =>
    intro i res h
    simp only [chromaLoop, Option.some.injEq] at h
    rw [← h]
    rfl
  | cons d rest ih =>
    intro i res h
    simp only [chromaLoop, Option.bind_eq_bind, Option.bind_eq_some,
      Option.some.injEq] at h
    obtain ⟨item, hitem, others, hothers, heq⟩ := h
    rw [← heq]
    simp only [List.map_cons]
    rw [chromaItem_id hitem, ih (i + 1) others hothers]

/-- Any value in the mapped option produced by the numpy result builder is
the similarity of the pair it was built from. -/
theorem numpy_item_sim (md : List QAMeta) (p : Nat × ℚ) (b : ℚ)
    (hb : b ∈ Option.map (fun t => t.similarity)
        (if p.1 < md.length then
          (md.get? p.1).map fun m => mkResult m p.2
        else none)) : b = p.2 := by
  split_ifs at hb with h
  · simp only [Option.map_map, Option.mem_def, Option.map_eq_some'] at hb
    obtain ⟨m, hm, heq⟩ := hb
    rw [← heq]
    rfl
  · simp at hb

/-- C4 (amended): the strategies pass computed similarity scores through
unchanged instead of range-checking them: (1) the memory strategy returns
exactly the FAISS scores whose indices are valid metadata positions,
verbatim (filtering is by index only, never by score range); (2) the
Chroma strategy formats every response row (the output has one result per
response id, none dropped); (3) every numpy-fallback result carries one of
the computed cosine similarities verbatim.  A score outside [0, 1] is
therefore returned as-is, neither dropped nor clamped. -/
theorem C4_scores_passed_through :
    (∀ (c : Nat) (md : List QAMeta) (rows : List (ℚ × Int)), c ≠ 0 →
      (UltraFastVectorService.search_memory_index true c md rows).map
          (fun t => t.similarity)
        = rows.filterMap fun si =>
            if 0 ≤ si.2 ∧ si.2 < (md.length : Int) then some si.1 else none)
  ∧ (∀ (r : ChromaResponse) (res : List SearchResult),
      chromaFormat r = some res → res.length = r.ids.length)
  ∧ (∀ (emb : List (List ℚ)) (md : List QAMeta) (cos : List ℚ → List ℚ → ℚ)
        (q : List ℚ) (k : Nat) (t : SearchResult),
      t ∈ UltraFastVectorService.search_numpy_fallback emb md cos q k →
      t.similarity ∈ emb.map (cos q)) := by
  refine ⟨?_, ?_, ?_⟩
  · intro c md rows hc
    unfold UltraFastVectorService.search_memory_index
    rw [if_neg (by simp [hc])]
    rw [List.map_filterMap]
    apply List.filterMap_congr
    intro si _
    by_cases hv : 0 ≤ si.2 ∧ si.2 < (md.length : Int)
    · have hlt : si.2.toNat < md.length := by omega
      rw [if_pos hv, if_pos hv, List.get?_eq_get hlt]
      rfl
    · rw [if_neg hv, if_neg hv]
      rfl
  · intro r res h
    have hids := chromaLoop_ids r r.ids 0 res h
    calc res.length = (res.map fun t => t.id).length := (List.length_map _ _).symm
    _ = r.ids.length := by rw [hids]
  · intro emb md cos q k t ht
    unfold UltraFastVectorService.search_numpy_fallback at ht
    split_ifs at ht with he
    · simp at ht
    · obtain ⟨p, hp, hf⟩ := List.mem_filterMap.mp ht
      have hp2 : p ∈ sortDescStable (emb.map (cos q)).enum :=
        (List.take_sublist _ _).subset hp
      have hp3 : p ∈ (emb.map (cos q)).enum := mem_sortDescStable.mp hp2
      have hsim : t.similarity = p.2 := by
        refine numpy_item_sim md p t.similarity ?_
        rw [Option.mem_def, hf]
        rfl
      obtain ⟨i, x⟩ := p
      have h4 := List.mem_enumFrom hp3
      simp only at h4 hsim
      rw [hsim, h4.2.2]
      exact List.getElem_mem _

/-- A Chroma response with cosine distance 2: the formatted similarity is
1 - 2 < 0, and the result is returned (kept), refuting both "similarity
within [0,1]" and "results outside [0,1] are dropped". -/
theorem C4_cex :
    UltraFastVectorService.search_chroma
        (.ok (some ⟨["a"], some ["q"], some [⟨some "ans"⟩], some [2]⟩))
      = [⟨"a", "q", "ans", 1 - 2⟩]
    ∧ ((1 : ℚ) - 2 < 0) :=
  ⟨rfl, by norm_num⟩

/-- Witness: the conjuncts of `C4_scores_passed_through` applied at
concrete strategy inputs. -/
theorem C4_witness :
    ((UltraFastVectorService.search_memory_index true 1
          [⟨"a", "q", "x"⟩] [(5, 0), (7, -1)]).map (fun t => t.similarity)
      = [(5, (0 : Int)), (7, -1)].filterMap fun si =>
          if 0 ≤ si.2 ∧ si.2 < ((1 : Nat) : Int) then some si.1 else none)
    ∧ (([(⟨"a", "q", "ans", 1 - 2⟩ : SearchResult)]).length
        = (ChromaResponse.mk ["a"] (some ["q"]) (some [⟨some "ans"⟩])
            (some [2])).ids.length)
    ∧ ((5 : ℚ) ∈ [[(1 : ℚ)]].map fun _ => (5 : ℚ)) := by
  refine ⟨?_, ?_, ?_⟩
  · exact C4_scores_passed_through.1 1 [⟨"a", "q", "x"⟩] [(5, 0), (7, -1)]
      (by decide)
  · exact C4_scores_passed_through.2.1
      ⟨["a"], some ["q"], some [⟨some "ans"⟩], some [2]⟩
      [⟨"a", "q", "ans", 1 - 2⟩] rfl
  · exact C4_scores_passed_through.2.2 [[(1 : ℚ)]] [⟨"a", "q", "x"⟩]
      (fun _ _ => 5) [0] 20 ⟨"a", "q", "x", 5⟩ (by decide)

/-- C9 (amended): (1) the numpy fallback strategy returns its results in
descending similarity order; (2) its underlying stable sort additionally
breaks similarity ties by first-seen (enumeration) index; (3) the Chroma
strategy performs no sorting at all — it emits one result per response id
in exactly the backend's response order, so its output is descending only
when the backend's distances already were ascending.  The memory-index
strategy likewise emits FAISS rows in the order received (see
`C4_scores_passed_through`). -/
theorem C9_ordering :
    (∀ (emb : List (List ℚ)) (md : List QAMeta) (cos : List ℚ → List ℚ → ℚ)
        (q : List ℚ) (k : Nat),
      ((UltraFastVectorService.search_numpy_fallback emb md cos q k).map
          (fun t => t.similarity)).Pairwise fun a b => b ≤ a)
  ∧ (∀ (emb : List (List ℚ)) (cos : List ℚ → List ℚ → ℚ) (q : List ℚ),
      (sortDescStable ((emb.map (cos q)).enum)).Pairwise rankBefore)
  ∧ (∀ (r : ChromaResponse) (res : List SearchResult),
      chromaFormat r = some res → res.map (fun t => t.id) = r.ids) := by
  have hsorted : ∀ (emb : List (List ℚ)) (cos : List ℚ → List ℚ → ℚ) (q : List ℚ),
      (sortDescStable ((emb.map (cos q)).enum)).Pairwise rankBefore := by
    intro emb cos q
    exact pairwise_sortDescStable
      (by simpa [List.enum] using pairwise_enumFrom_fst (emb.map (cos q)) 0)
  refine ⟨?_, hsorted, ?_⟩
  · intro emb md cos q k
    unfold UltraFastVectorService.search_numpy_fallback
    split_ifs with he
    · simp
    · rw [List.map_filterMap]
      refine List.pairwise_filterMap.mpr ?_
      have htake : (((sortDescStable ((emb.map (cos q)).enum))).take k).Pairwise
          rankBefore :=
        List.Pairwise.sublist (List.take_sublist _ _) (hsorted emb cos q)
      refine htake.imp ?_
      intro p p2 hpq b hb b2 hb2
      have h1 := numpy_item_sim md p b hb
      have h2 := numpy_item_sim md p2 b2 hb2
      rw [h1, h2]
      rcases hpq with hlt | ⟨heq, _⟩
      · exact le_of_lt hlt
      · exact le_of_eq heq.symm
  · exact fun r res h => chromaLoop_ids r r.ids 0 res h

/-- A Chroma response whose distances arrive in descending order: the
formatted similarities are ascending, so the strategy's output is not
sorted by descending similarity, refuting the claim for the Chroma
strategy. -/
theorem C9_cex :
    UltraFastVectorService.search_chroma
        (.ok (some ⟨["a", "b"], some ["qa", "qb"],
          some [⟨some "x"⟩, ⟨some "y"⟩], some [1, 0]⟩))
      = [⟨"a", "qa", "x", 1 - 1⟩, ⟨"b", "qb", "y", 1 - 0⟩]
    ∧ ((1 : ℚ) - 1 < 1 - 0) :=
  ⟨rfl, by norm_num⟩

/-- Witness: the conjuncts of `C9_ordering` applied at concrete inputs
(two tied similarities and one larger one). -/
theorem C9_witness :
    (((UltraFastVectorService.search_numpy_fallback
          [[1], [2], [3]] [⟨"a", "qa", "x"⟩, ⟨"b", "qb", "y"⟩, ⟨"c", "qc", "z"⟩]
          (fun _ e => if e = [2] then 5 else 1) [0] 20).map
        (fun t => t.similarity)).Pairwise fun a b => b ≤ a)
    ∧ ((sortDescStable ((([[(1 : ℚ)], [2], [3]]).map
          (fun _ => (7 : ℚ))).enum)).Pairwise rankBefore)
    ∧ ((UltraFastVectorService.search_chroma
          (.ok (some ⟨["a", "b"], some ["qa", "qb"],
            some [⟨some "x"⟩, ⟨some "y"⟩], some [1, 0]⟩))).map (fun t => t.id)
        = ["a", "b"]) := by
  refine ⟨?_, ?_, ?_⟩
  · exact C9_ordering.1 [[1], [2], [3]]
      [⟨"a", "qa", "x"⟩, ⟨"b", "qb", "y"⟩, ⟨"c", "qc", "z"⟩]
      (fun _ e => if e = [2] then 5 else 1) [0] 20
  · exact C9_ordering.2.1 [[(1 : ℚ)], [2], [3]] (fun _ _ => (7 : ℚ)) [0]
  · exact C9_ordering.2.2
      ⟨["a", "b"], some ["qa", "qb"], some [⟨some "x"⟩, ⟨some "y"⟩], some [1, 0]⟩
      [⟨"a", "qa", "x", 1 - 1⟩, ⟨"b", "qb", "y", 1 - 0⟩] rfl

/-! ## Orchestrator body lemmas -/

/-- When the memory path yields nothing, the body runs the fallback race. -/
theorem body_race_of_memoryUnavailable (env : OrchEnv)
    (h : memoryPathUnavailable env) :
    UltraFastVectorService.ultra_fast_search_body env
      = raceStage env (env.index_loaded && env.memory_index_present) := by
  unfold UltraFastVectorService.ultra_fast_search_body
  by_cases hg : (env.index_loaded && env.memory_index_present) = true
  · rw [hg, if_pos rfl]
    rcases h with hguard | ⟨e, herr⟩ | hempty
    · rcases hguard with h1 | h2
      · rw [Bool.and_eq_true] at hg
        rw [hg.1] at h1
        cases h1
      · rw [Bool.and_eq_true] at hg
        rw [hg.2] at h2
        cases h2
    · rw [herr]
    · rw [hempty]
      simp
  · rw [Bool.not_eq_true] at hg
    rw [hg]
    simp

/-- The `as_completed` loop returns the unique non-empty strategy result,
whichever completion order the race produced. -/
theorem raceLoop_exactly_one (c n : List SearchResult) (b : Bool)
    (hc : c ≠ []) (hn : n = []) :
    raceLoop (if b then [Except.ok c, Except.ok n] else [Except.ok n, Except.ok c])
      = c := by
  have hce : c.isEmpty = false := by
    rw [List.isEmpty_eq_false_iff_exists_mem]
    rcases c with _ | ⟨x, xs⟩
    · cases hc rfl
    · exact ⟨x, List.mem_cons_self _ _⟩
  cases b <;> simp [raceLoop, hn, hce]

/-! ## C6: in-memory hit short-circuits the backends -/

/-- C6: when the in-memory index is loaded and present and searching it
returns a non-empty result list, the body of `ultra_fast_search` returns
exactly those results, and the fallback race — hence the out-of-process
Chroma backend — is never started. -/
theorem C6_memory_short_circuit (env : OrchEnv) (r : List SearchResult)
    (hl : env.index_loaded = true) (hp : env.memory_index_present = true)
    (hm : env.memory_outcome = .ok r) (hne : r ≠ []) :
    UltraFastVectorService.ultra_fast_search_body env = ⟨r, true, false⟩ := by
  unfold UltraFastVectorService.ultra_fast_search_body
  rw [hl, hp]
  simp only [Bool.and_self, if_pos]
  rw [hm]
  have hre : r.isEmpty = false := by
    rw [List.isEmpty_eq_false_iff_exists_mem]
    rcases r with _ | ⟨x, xs⟩
    · cases hne rfl
    · exact ⟨x, List.mem_cons_self _ _⟩
  simp [hre]

/-- An environment whose memory index holds one result for the query. -/
def envMemoryHit : OrchEnv :=
  ⟨true, true, .ok [⟨"a", "q", "x", 5⟩], .timeout, [], [], fun _ _ => 0, [0], 20,
    true⟩

/-- Witness: `C6_memory_short_circuit` at a concrete environment — the
memory result is returned and `backends_invoked` is `false`. -/
theorem C6_witness :
    UltraFastVectorService.ultra_fast_search_body envMemoryHit
      = ⟨[⟨"a", "q", "x", 5⟩], true, false⟩ :=
  C6_memory_short_circuit envMemoryHit [⟨"a", "q", "x", 5⟩] rfl rfl rfl
    (by intro h; cases h)

/-! ## C7: fallback completeness -/

/-- When the memory path yields nothing and exactly one backend strategy
returns a non-empty list, the body's output is that list (either race
completion order). -/
theorem body_fallback_output (env : OrchEnv)
    (hmem : memoryPathUnavailable env) :
    (UltraFastVectorService.search_chroma env.chroma_outcome ≠ [] →
     UltraFastVectorService.search_numpy_fallback env.qa_embeddings
        env.qa_metadata env.cos env.query env.top_k = [] →
     (UltraFastVectorService.ultra_fast_search_body env).output
       = UltraFastVectorService.search_chroma env.chroma_outcome)
    ∧ (UltraFastVectorService.search_numpy_fallback env.qa_embeddings
          env.qa_metadata env.cos env.query env.top_k ≠ [] →
       UltraFastVectorService.search_chroma env.chroma_outcome = [] →
       (UltraFastVectorService.ultra_fast_search_body env).output
         = UltraFastVectorService.search_numpy_fallback env.qa_embeddings
             env.qa_metadata env.cos env.query env.top_k) := by
  rw [body_race_of_memoryUnavailable env hmem]
  unfold raceStage
  constructor
  · intro hc hn
    simpa using raceLoop_exactly_one _ _ env.chroma_first hc hn
  · intro hn hc
    have h2 := raceLoop_exactly_one _ _ (!env.chroma_first) hn hc
    cases hb : env.chroma_first <;>
      simpa [hb, raceLoop] using h2

/-- C7: when the memory path yields nothing (index absent, search raised,
or it returned no results) and exactly one of the two backend strategies
returns a non-empty list (the other empty — which is also how either
strategy reports an internal failure), the body's output is exactly the
non-empty strategy's list, under either completion order of the race. -/
theorem C7_fallback_completeness (env : OrchEnv)
    (hmem : memoryPathUnavailable env) :
    (UltraFastVectorService.search_chroma env.chroma_outcome ≠ [] →
     UltraFastVectorService.search_numpy_fallback env.qa_embeddings
        env.qa_metadata env.cos env.query env.top_k = [] →
     (UltraFastVectorService.ultra_fast_search_body env).output
       = UltraFastVectorService.search_chroma env.chroma_outcome)
    ∧ (UltraFastVectorService.search_numpy_fallback env.qa_embeddings
          env.qa_metadata env.cos env.query env.top_k ≠ [] →
       UltraFastVectorService.search_chroma env.chroma_outcome = [] →
       (UltraFastVectorService.ultra_fast_search_body env).output
         = UltraFastVectorService.search_numpy_fallback env.qa_embeddings
             env.qa_metadata env.cos env.query env.top_k) :=
  body_fallback_output env hmem

/-- An environment with no memory index where Chroma fails internally and
the numpy fallback finds one result. -/
def envNumpyOnly : OrchEnv :=
  ⟨false, false, .ok [], .failed, [[1]], [⟨"a", "q", "x"⟩], fun _ _ => 5, [0], 20,
    true⟩

/-- Witness: `C7_fallback_completeness` at a concrete environment — the
numpy fallback is the unique non-empty strategy and its list is returned. -/
theorem C7_witness :
    (UltraFastVectorService.ultra_fast_search_body envNumpyOnly).output
      = UltraFastVectorService.search_numpy_fallback envNumpyOnly.qa_embeddings
          envNumpyOnly.qa_metadata envNumpyOnly.cos envNumpyOnly.query
          envNumpyOnly.top_k :=
  (C7_fallback_completeness envNumpyOnly (Or.inl (Or.inl rfl))).2
    (by intro h; rw [show UltraFastVectorService.search_numpy_fallback
          envNumpyOnly.qa_embeddings envNumpyOnly.qa_metadata envNumpyOnly.cos
          envNumpyOnly.query envNumpyOnly.top_k
        = [⟨"a", "q", "x", 5⟩] from rfl] at h; cases h)
    rfl

/-! ## C5: a backend timeout during the race -/

/-- C5 (amended): a Chroma timeout is caught inside `_search_chroma` and
converted into an empty result — it raises nothing; the race then
continues and the orchestrator returns the other strategy's non-empty
result.  No breaker bookkeeping records the timeout: the code has no
per-strategy breakers, and the single breaker wrapping the whole
orchestrator sees a successful call (the body returns a value), so a
breaker that starts CLOSED with a zero failure count is entirely
unchanged. -/
theorem C5_timeout_race_continues :
    (UltraFastVectorService.search_chroma .timeout = [])
  ∧ (∀ (env : OrchEnv) (b : CircuitBreaker) (t : Int),
      env.chroma_outcome = .timeout →
      memoryPathUnavailable env →
      UltraFastVectorService.search_numpy_fallback env.qa_embeddings
        env.qa_metadata env.cos env.query env.top_k ≠ [] →
      b.state = .closed → b.failure_count = 0 →
      ((UltraFastVectorService.ultra_fast_search_body env).output
          = UltraFastVectorService.search_numpy_fallback env.qa_embeddings
              env.qa_metadata env.cos env.query env.top_k)
        ∧ (b.call t
            (Except.ok (UltraFastVectorService.ultra_fast_search_body env).output)).breaker
          = b) := by
  refine ⟨rfl, ?_⟩
  intro env b t hto hmem hn hst hfc
  have hcempty : UltraFastVectorService.search_chroma env.chroma_outcome = [] := by
    rw [hto]
    rfl
  have hout := (body_fallback_output env hmem).2 hn hcempty
  refine ⟨hout, ?_⟩
  rw [CircuitBreaker.call_not_opened b t _ (by rw [hst]; intro h; cases h)]
  show b.on_success = b
  rw [CircuitBreaker.on_success_def, if_neg (by rw [hst]; intro h; cases h)]
  cases b
  simp only at hfc
  rw [hfc]

/-- An environment with no memory index where the Chroma call times out
and the numpy fallback finds one result. -/
def envChromaTimeout : OrchEnv :=
  ⟨false, false, .ok [], .timeout, [[1]], [⟨"a", "q", "x"⟩], fun _ _ => 5, [0], 20,
    true⟩

/-- A fresh breaker over the orchestrator's decorator configuration. -/
def vectorBreaker : CircuitBreaker := { config := vectorSearchBreakerConfig }

/-- C5 counterexample to the claim as stated: with Chroma timing out and
numpy returning one result, the orchestrator returns numpy's result — but
no failure is recorded anywhere: the model contains every breaker the code
has (the single one wrapping `ultra_fast_search`), and after the call its
failure count is still 0 with `last_failure_time` and state untouched, so
the timeout was not "counted as a failure in that strategy's own breaker
bookkeeping" (no such bookkeeping exists). -/
theorem C5_cex :
    ((UltraFastVectorService.ultra_fast_search_body envChromaTimeout).output
      = [⟨"a", "q", "x", 5⟩])
    ∧ ((vectorBreaker.call 0
          (Except.ok (UltraFastVectorService.ultra_fast_search_body
            envChromaTimeout).output)).breaker.failure_count = 0)
    ∧ ((vectorBreaker.call 0
          (Except.ok (UltraFastVectorService.ultra_fast_search_body
            envChromaTimeout).output)).breaker.state = .closed)
    ∧ ((vectorBreaker.call 0
          (Except.ok (UltraFastVectorService.ultra_fast_search_body
            envChromaTimeout).output)).breaker.last_failure_time
        = vectorBreaker.last_failure_time) := by
  refine ⟨rfl, rfl, rfl, rfl⟩

/-- Witness: `C5_timeout_race_continues` applied at the concrete timeout
environment and a fresh orchestrator breaker. -/
theorem C5_witness :
    ((UltraFastVectorService.ultra_fast_search_body envChromaTimeout).output
      = UltraFastVectorService.search_numpy_fallback envChromaTimeout.qa_embeddings
          envChromaTimeout.qa_metadata envChromaTimeout.cos envChromaTimeout.query
          envChromaTimeout.top_k)
    ∧ ((vectorBreaker.call 7
        (Except.ok (UltraFastVectorService.ultra_fast_search_body
          envChromaTimeout).output)).breaker = vectorBreaker) :=
  C5_timeout_race_continues.2 envChromaTimeout vectorBreaker 7 rfl
    (Or.inl (Or.inl rfl))
    (by intro h
        rw [show UltraFastVectorService.search_numpy_fallback
              envChromaTimeout.qa_embeddings envChromaTimeout.qa_metadata
              envChromaTimeout.cos envChromaTimeout.query envChromaTimeout.top_k
            = [⟨"a", "q", "x", 5⟩] from rfl] at h
        cases h)
    rfl rfl

/-! ## C2: empty safety of the orchestrator -/

/-- An environment where every strategy yields nothing: no memory index,
an empty Chroma response, and no embeddings for the numpy fallback. -/
def envEmpty : OrchEnv :=
  ⟨false, false, .ok [], .ok none, [], [], fun _ _ => 0, [0], 20, true⟩

/-- An empty cache state for the orchestrator's `cache_result` wrapper. -/
def emptyVectorCache : CacheState (List SearchResult) := ⟨[], false, [], 0, 0, 0⟩

/-- C2: (1) the body of `ultra_fast_search` is total and returns `[]`
whenever the memory path yields nothing and both backend strategies return
empty lists (each strategy catches its own exceptions, so a strategy
failure surfaces exactly as an empty list); but (2) `ultra_fast_search` as
exposed to its caller first runs the `cache_result` wrapper, whose
fingerprint `json.dumps` is applied to an `args` tuple that starts with
the bound service instance — a non-serializable object — so the exposed
call raises `TypeError` before the body ever runs, and (3) the breaker,
whose `expected_exception` is the default `(Exception,)`, counts that
`TypeError` as a failure. -/
theorem C2_empty_safety :
    (∀ env : OrchEnv,
      memoryPathUnavailable env →
      UltraFastVectorService.search_chroma env.chroma_outcome = [] →
      UltraFastVectorService.search_numpy_fallback env.qa_embeddings
        env.qa_metadata env.cos env.query env.top_k = [] →
      (UltraFastVectorService.ultra_fast_search_body env).output = [])
  ∧ ((ultra_fast_search_exposed { config := vectorSearchBreakerConfig }
        emptyVectorCache 0 envEmpty none false).1
      = .error (.typeError
          "Object of type UltraFastVectorService is not JSON serializable"))
  ∧ ((ultra_fast_search_exposed { config := vectorSearchBreakerConfig }
        emptyVectorCache 0 envEmpty none false).2.1.failure_count = 1) := by
  refine ⟨?_, rfl, rfl⟩
  intro env hmem hc hn
  rw [body_race_of_memoryUnavailable env hmem]
  unfold raceStage
  cases hb : env.chroma_first <;> simp [hb, hc, hn, raceLoop]

/-- Witness: the body conjunct of `C2_empty_safety` applied at the
concrete all-empty environment. -/
theorem C2_witness :
    (UltraFastVectorService.ultra_fast_search_body envEmpty).output = [] :=
  C2_empty_safety.1 envEmpty (Or.inl (Or.inl rfl)) rfl rfl

end ChatBot
